import Mathlib

/-!
Shallow embedding of the ASEAVNA sales-report engine (`sales_report.py`):
name normalization, contact directory construction, transaction
classification (row rejection), the subsidy/commission rating function,
deduplication, and the billing summary.  Monetary amounts are modelled as
rationals; tables from `config.yaml` (subsidy rules, cost centers) are
explicit parameters.
-/

namespace SalesReport

/-- Whitespace characters recognized by the trimming step (Python `str.strip`),
restricted to the ASCII whitespace range. -/
def isPySpace (c : Char) : Bool :=
  c == ' ' || c == '\t' || c == '\n' || c == '\x0b' || c == '\x0c' || c == '\r'

/-- Lower-casing table (Python `str.lower`), covering ASCII letters and the
accented capitals occurring in the data; characters without an entry are
unchanged. -/
def lowerTable : List (Char × Char) :=
  [('A', 'a'), ('B', 'b'), ('C', 'c'), ('D', 'd'), ('E', 'e'), ('F', 'f'),
   ('G', 'g'), ('H', 'h'), ('I', 'i'), ('J', 'j'), ('K', 'k'), ('L', 'l'),
   ('M', 'm'), ('N', 'n'), ('O', 'o'), ('P', 'p'), ('Q', 'q'), ('R', 'r'),
   ('S', 's'), ('T', 't'), ('U', 'u'), ('V', 'v'), ('W', 'w'), ('X', 'x'),
   ('Y', 'y'), ('Z', 'z'),
   ('Á', 'á'), ('É', 'é'), ('Í', 'í'), ('Ó', 'ó'), ('Ú', 'ú'), ('Ü', 'ü'),
   ('Ñ', 'ñ')]

/-- Lower-case one character via `lowerTable`. -/
def pyLowerChar (c : Char) : Char :=
  match lowerTable.find? (fun p => p.1 == c) with
  | some p => p.2
  | none => c

/-- Unicode canonical decomposition (`unicodedata.normalize('NFD', ·)`),
restricted to the accented lower-case letters occurring in the data;
characters without an entry decompose to themselves. -/
def decompTable : List (Char × List Char) :=
  [('á', ['a', '\u0301']), ('é', ['e', '\u0301']), ('í', ['i', '\u0301']),
   ('ó', ['o', '\u0301']), ('ú', ['u', '\u0301']), ('ü', ['u', '\u0308']),
   ('ñ', ['n', '\u0303'])]

/-- Canonical decomposition of one character via `decompTable`. -/
def decompChar (c : Char) : List Char :=
  match decompTable.find? (fun p => p.1 == c) with
  | some p => p.2
  | none => [c]

/-- Unicode general category Mn (nonspacing combining marks), modelled as the
Combining Diacritical Marks block U+0300–U+036F. -/
def isMn (c : Char) : Bool :=
  0x300 ≤ c.toNat && c.toNat ≤ 0x36F

/-- Python `str.strip`: drop leading and trailing whitespace. -/
def pyStrip (l : List Char) : List Char :=
  ((l.dropWhile isPySpace).reverse.dropWhile isPySpace).reverse

/-- `Contacto._normalize_name`: strip, lower-case, NFD-decompose dropping the
combining marks, and remove all space characters. -/
def normalizeChars (l : List Char) : List Char :=
  ((((pyStrip l).map pyLowerChar).map decompChar).flatten.filter
    (fun c => !(isMn c))).filter (fun c => !(c == ' '))

/-- String wrapper for `normalizeChars`. -/
def normalizeName (s : String) : String :=
  ⟨normalizeChars s.data⟩

/-- String wrapper for `pyStrip` (Python `str.strip`). -/
def pyStripStr (s : String) : String :=
  ⟨pyStrip s.data⟩

/-- A parsed order timestamp (`pd.to_datetime` result). -/
structure Fecha where
  year : Nat
  month : Nat
  day : Nat
  hour : Nat
  minute : Nat
  second : Nat
deriving DecidableEq

/-- A sanitized contact (class `Contacto`). -/
structure Contacto where
  nombre : String
  cedula : String
  puesto : String
  tipo : String
  normalized_name : String
deriving DecidableEq

/-- `Contacto.__init__`: sanitize the four fields (null fields become the
sentinel strings) and derive the normalized lookup name. -/
def Contacto.make (nombre cedula puesto tipo : Option String) : Contacto :=
  let nom := match nombre with
    | some n => pyStripStr n
    | none => "Desconocido"
  { nombre := nom
    cedula := cedula.getD "Desconocido"
    puesto := puesto.getD "No especificado"
    tipo := tipo.getD "Desconocido"
    normalized_name := normalizeName nom }

/-- A per-category subsidy rule from `config.yaml` (`SUBSIDY_RULES` entry);
each field may be absent, in which case `Venta.aplicar_subsidios_y_comisiones`
falls back to its hard-coded default. -/
structure SubsidyRule where
  subsidy : Option ℚ
  employee_payment : Option ℚ
  commission : Option ℚ
deriving DecidableEq

/-- The `SUBSIDY_RULES` table: category → rule. -/
abbrev SubsidyRules := List (String × SubsidyRule)

/-- `SUBSIDY_RULES.get(tipo, {})` (the `{}` default is represented by `none`,
with the per-field `dict.get` defaults applied at each field read). -/
def lookupRule (rules : SubsidyRules) (tipo : String) : Option SubsidyRule :=
  (rules.find? (fun p => p.1 == tipo)).map Prod.snd

/-- A sale (class `Venta`) with its classification and rating fields. -/
structure Venta where
  cliente : String
  display_name : String
  empresa : String
  fecha : Option Fecha
  orden : String
  cantidad : ℚ
  precio_unitario : ℚ
  total : ℚ
  producto : String
  vendedor : String
  tipo : String
  client_name : String
  contacto : Contacto
  name : String
  cedula : String
  position : String
  cost_center : String
  is_subsidized : Bool
  subsidy : ℚ
  employee_payment : ℚ
  employee_payment_base : ℚ
  asoavna_commission : ℚ
  iva : ℚ
  client_credit : ℚ
  aseavna_account : ℚ
  base_price : ℚ
deriving DecidableEq

/-- `Venta.aplicar_subsidios_y_comisiones`: compute the base-price/tax split,
and on a subsidized line override the total to the fixed list price 3100,
apply the category rule (with per-field defaults), otherwise apply the flat
5% commission treatment.  Finally mirror the ledger fields. -/
def aplicar (rules : SubsidyRules) (iva_rate : ℚ) (v : Venta) : Venta :=
  let iva_factor := 1 + iva_rate / 100
  let base_price := v.total / iva_factor
  let iva := v.total - base_price
  if v.is_subsidized then
    let total : ℚ := 3100
    let base_price := total / iva_factor
    let iva := total - base_price
    let r := lookupRule rules v.tipo
    let subsidy := (r.bind (fun q => q.subsidy)).getD 0
    let employee_payment := (r.bind (fun q => q.employee_payment)).getD total
    let employee_payment_base := employee_payment / iva_factor
    let asoavna_commission := (r.bind (fun q => q.commission)).getD 150
    { v with
      total := total
      base_price := base_price
      iva := iva
      subsidy := subsidy
      employee_payment := employee_payment
      employee_payment_base := employee_payment_base
      asoavna_commission := asoavna_commission
      client_credit := employee_payment
      aseavna_account := subsidy }
  else
    { v with
      base_price := base_price
      iva := iva
      subsidy := 0
      employee_payment := v.total
      employee_payment_base := base_price
      asoavna_commission := v.total * (5 / 100)
      client_credit := v.total
      aseavna_account := 0 }

/-- The contact directory: normalized name → contact. -/
abbrev Contactos := List (String × Contacto)

/-- The deduplication key of `ReporteVentas._crear_dataframe`:
`order + '-' + client + '-' + product`. -/
def ventaKey (v : Venta) : String :=
  v.orden ++ "-" ++ v.cliente ++ "-" ++ v.producto

/-- `drop_duplicates(subset='key')` keeping the first occurrence per key. -/
def dedupGo (seen : List String) : List Venta → List Venta
  | [] => []
  | v :: vs =>
    if ventaKey v ∈ seen then dedupGo seen vs
    else v :: dedupGo (ventaKey v :: seen) vs

/-- `ReporteVentas._crear_dataframe`: collapse rows sharing a deduplication
key to the first-seen row. -/
def dedupVentas (l : List Venta) : List Venta :=
  dedupGo [] l

/-- One category bucket of the billing summary. -/
structure Bucket where
  count : ℚ
  subsidy : ℚ
  employee_payment : ℚ
  iva : ℚ
  commission : ℚ
deriving DecidableEq

/-- The all-zero bucket. -/
def Bucket.zero : Bucket :=
  ⟨0, 0, 0, 0, 0⟩

/-- Accumulate one subsidized row into a bucket
(`facturacion[key][...] += ...`); note that the `employee_payment` cell
accumulates `employee_payment_base * quantity`. -/
def bucketStep (b : Bucket) (v : Venta) : Bucket :=
  { count := b.count + v.cantidad
    subsidy := b.subsidy + v.subsidy * v.cantidad
    employee_payment := b.employee_payment + v.employee_payment_base * v.cantidad
    iva := b.iva + v.iva * v.cantidad
    commission := b.commission + v.asoavna_commission * v.cantidad }

/-- Running state of the `for` loop of `ReporteVentas._calcular_facturacion`. -/
structure FactAcc where
  ben1 : Bucket
  ben2 : Bucket
  otros : Bucket
  total_commission : ℚ
deriving DecidableEq

/-- One iteration of the billing loop: every row contributes to the grand
commission total; only subsidized rows land in a category bucket. -/
def factStep (a : FactAcc) (v : Venta) : FactAcc :=
  let a := { a with
    total_commission := a.total_commission + v.asoavna_commission * v.cantidad }
  if v.is_subsidized then
    if v.tipo == "BEN1_70" then { a with ben1 := bucketStep a.ben1 v }
    else if v.tipo == "BEN2_62" then { a with ben2 := bucketStep a.ben2 v }
    else { a with otros := bucketStep a.otros v }
  else a

/-- The billing summary returned by `ReporteVentas._calcular_facturacion`. -/
structure Facturacion where
  ben1 : Bucket
  ben2 : Bucket
  otros : Bucket
  subsidy_percentage_ben1 : ℚ
  subsidy_percentage_ben2 : ℚ
  total_subsidy : ℚ
  total_employee_payment : ℚ
  total_iva : ℚ
  total_commission : ℚ
  total_commission_subsidized : ℚ
deriving DecidableEq

/-- `ReporteVentas._calcular_facturacion`: the empty input short-circuits to
the all-zero summary; otherwise fold the billing loop and derive the
percentages and totals. -/
def calcularFacturacion (l : List Venta) : Facturacion :=
  if l.isEmpty then
    ⟨Bucket.zero, Bucket.zero, Bucket.zero, 0, 0, 0, 0, 0, 0, 0⟩
  else
    let acc := l.foldl factStep ⟨Bucket.zero, Bucket.zero, Bucket.zero, 0⟩
    let total_ben1 := acc.ben1.subsidy + acc.ben1.employee_payment
    let total_ben2 := acc.ben2.subsidy + acc.ben2.employee_payment
    { ben1 := acc.ben1
      ben2 := acc.ben2
      otros := acc.otros
      subsidy_percentage_ben1 :=
        if total_ben1 > 0 then acc.ben1.subsidy / total_ben1 * 100 else 0
      subsidy_percentage_ben2 :=
        if total_ben2 > 0 then acc.ben2.subsidy / total_ben2 * 100 else 0
      total_subsidy := acc.ben1.subsidy + acc.ben2.subsidy + acc.otros.subsidy
      total_employee_payment := acc.ben1.employee_payment +
        acc.ben2.employee_payment + acc.otros.employee_payment
      total_iva := acc.ben1.iva + acc.ben2.iva + acc.otros.iva
      total_commission := acc.total_commission
      total_commission_subsidized := acc.ben1.commission + acc.ben2.commission +
        acc.otros.commission }

/-- One raw row of `users_data.csv`, as (column, cell) pairs; a cell is
`none` when null. -/
abbrev UserRow := List (String × Option String)

/-- Read one cell of a roster row (absent column reads as null). -/
def getCell (r : UserRow) (c : String) : Option String :=
  match r.find? (fun p => p.1 == c) with
  | some p => p.2
  | none => none

/-- The roster table: its column list and its data rows. -/
structure UserDF where
  columns : List String
  rows : List UserRow

/-- The required roster columns of `ReporteVentas._procesar_contactos`. -/
def requiredUserColumns : List String :=
  ["Nombre", "Cédula", "Puesto", "Tipo"]

/-- The roster columns missing from a table. -/
def missingUserColumns (df : UserDF) : List String :=
  requiredUserColumns.filter (fun c => !(df.columns.contains c))

/-- `ReporteVentas._procesar_contactos`: an empty table yields an empty
directory; a table missing required columns raises (modelled as `Except`);
otherwise rows with a blank or null name are dropped and the rest become
contacts keyed by normalized name. -/
def procesarContactos (df : UserDF) : Except String Contactos :=
  if df.rows.isEmpty then .ok []
  else
    let missing := missingUserColumns df
    if missing.isEmpty then
      let kept := df.rows.filter (fun r =>
        match getCell r "Nombre" with
        | some n => !(pyStripStr n == "")
        | none => false)
      .ok (kept.map (fun r =>
        let c := Contacto.make (getCell r "Nombre") (getCell r "Cédula")
          (getCell r "Puesto") (getCell r "Tipo")
        (c.normalized_name, c)))
    else
      .error ("Columnas faltantes en users_data.csv: " ++
        String.intercalate ", " missing)

/-- A character is either fixed by lower-casing or is a table value. -/
theorem pyLowerChar_cases (c : Char) :
    pyLowerChar c = c ∨ pyLowerChar c ∈ lowerTable.map Prod.snd := by
  unfold pyLowerChar
  cases h : lowerTable.find? (fun p => p.1 == c) with
  | none => exact Or.inl rfl
  | some p => exact Or.inr (List.mem_map_of_mem Prod.snd (List.mem_of_find?_eq_some h))

/-- Lower-casing is idempotent: table values are themselves fixed points. -/
theorem pyLowerChar_idem (c : Char) : pyLowerChar (pyLowerChar c) = pyLowerChar c := by
  rcases pyLowerChar_cases c with h | h
  · rw [h, h]
  · have hfix : ∀ x ∈ lowerTable.map Prod.snd, pyLowerChar x = x := by decide
    exact hfix _ h

/-- A character either decomposes to itself or to a table value. -/
theorem decompChar_cases (c : Char) :
    decompChar c = [c] ∨ decompChar c ∈ decompTable.map Prod.snd := by
  unfold decompChar
  cases h : decompTable.find? (fun p => p.1 == c) with
  | none => exact Or.inl rfl
  | some p => exact Or.inr (List.mem_map_of_mem Prod.snd (List.mem_of_find?_eq_some h))

/-- A non-combining-mark component of the decomposition of a lowered character
is fixed by lower-casing and decomposes to itself. -/
theorem decomp_component_ready (c d : Char)
    (hd : d ∈ decompChar (pyLowerChar c)) (hmn : isMn d = false) :
    pyLowerChar d = d ∧ decompChar d = [d] := by
  rcases decompChar_cases (pyLowerChar c) with h | h
  · rw [h] at hd
    simp only [List.mem_singleton] at hd
    subst hd
    exact ⟨pyLowerChar_idem c, h⟩
  · have hfix : ∀ L ∈ decompTable.map Prod.snd, ∀ d ∈ L, isMn d = false →
        pyLowerChar d = d ∧ decompChar d = [d] := by decide
    exact hfix _ h d hd hmn

/-- Every character surviving normalization is lower-case-fixed, decomposes to
itself, is not a combining mark and is not a space. -/
theorem mem_normalizeChars {d : Char} {l : List Char} (hd : d ∈ normalizeChars l) :
    pyLowerChar d = d ∧ decompChar d = [d] ∧ isMn d = false ∧ ¬(d = ' ') := by
  unfold normalizeChars at hd
  have h1 := List.mem_filter.mp hd
  have h2 := List.mem_filter.mp h1.1
  obtain ⟨L, hL, hdL⟩ := List.mem_flatten.mp h2.1
  obtain ⟨a, ha, rfl⟩ := List.mem_map.mp hL
  obtain ⟨c, _, rfl⟩ := List.mem_map.mp ha
  have hmn : isMn d = false := by simpa using h2.2
  have hsp : ¬(d = ' ') := by simpa using h1.2
  have hready := decomp_component_ready c d hdL hmn
  exact ⟨hready.1, hready.2, hmn, hsp⟩

/-- Mapping a function fixing every member is the identity. -/
theorem map_id_of_mem {α : Type} (f : α → α) (l : List α)
    (h : ∀ x ∈ l, f x = x) : l.map f = l := by
  induction l with
  | nil => rfl
  | cons a t ih =>
    have ha := h a (List.mem_cons_self a t)
    have ht := ih (fun x hx => h x (List.mem_cons_of_mem a hx))
    simp [ha, ht]

/-- Filtering by a predicate holding on every member is the identity. -/
theorem filter_id_of_mem {α : Type} (p : α → Bool) (l : List α)
    (h : ∀ x ∈ l, p x = true) : l.filter p = l := by
  induction l with
  | nil => rfl
  | cons a t ih =>
    have ha := h a (List.mem_cons_self a t)
    have ht := ih (fun x hx => h x (List.mem_cons_of_mem a hx))
    simp [List.filter_cons, ha, ht]

/-- Flattening the decomposition of a list of self-decomposing characters is
the identity. -/
theorem flatten_decomp_of_mem (l : List Char)
    (h : ∀ x ∈ l, decompChar x = [x]) : (l.map decompChar).flatten = l := by
  induction l with
  | nil => rfl
  | cons a t ih =>
    have ha := h a (List.mem_cons_self a t)
    have ht := ih (fun x hx => h x (List.mem_cons_of_mem a hx))
    simp [ha, ht]

/-- Normalization fixes any list of trim-stable, normalization-ready
characters. -/
theorem normalizeChars_fixed (t : List Char) (hstrip : pyStrip t = t)
    (hready : ∀ d ∈ t,
      pyLowerChar d = d ∧ decompChar d = [d] ∧ isMn d = false ∧ ¬(d = ' ')) :
    normalizeChars t = t := by
  unfold normalizeChars
  rw [hstrip]
  rw [map_id_of_mem pyLowerChar t (fun x hx => (hready x hx).1)]
  rw [flatten_decomp_of_mem t (fun x hx => (hready x hx).2.1)]
  rw [filter_id_of_mem _ t (fun x hx => by simp [(hready x hx).2.2.1])]
  rw [filter_id_of_mem _ t (fun x hx => by
    simpa using (hready x hx).2.2.2)]

/-- C9: the claim as stated fails: a leading combining mark hides a tab from
the trim step, and the second normalization pass then strips the exposed
leading tab, so `normalize` is not idempotent on the string U+0301, TAB, x. -/
theorem c9_counterexample :
    normalizeName (normalizeName "\u0301\tx") ≠ normalizeName "\u0301\tx" := by
  decide

/-- C9 (amended): `normalize(normalize(n)) = normalize(n)` for every string
`n` whose normalized form carries no leading or trailing whitespace (all
strings whose whitespace is only the space character qualify). -/
theorem c9_normalize_idempotent (s : String)
    (h : pyStrip (normalizeName s).data = (normalizeName s).data) :
    normalizeName (normalizeName s) = normalizeName s := by
  have key : ∀ d ∈ normalizeChars s.data,
      pyLowerChar d = d ∧ decompChar d = [d] ∧ isMn d = false ∧ ¬(d = ' ') :=
    fun d hd => mem_normalizeChars hd
  show (⟨normalizeChars (normalizeChars s.data)⟩ : String) = ⟨normalizeChars s.data⟩
  exact congrArg String.mk (normalizeChars_fixed (normalizeChars s.data) h key)

/-- C9 witness: the amended idempotence at the concrete name `"Juan Pérez"`. -/
theorem c9_witness :
    pyStrip (normalizeName "Juan Pérez").data = (normalizeName "Juan Pérez").data ∧
    normalizeName (normalizeName "Juan Pérez") = normalizeName "Juan Pérez" :=
  ⟨by decide, c9_normalize_idempotent "Juan Pérez" (by decide)⟩

/-- The shipped subsidy-rule table (the two beneficiary categories, fixed
list price 2100 + 1000 = 1800 + 1300 = 3100, flat 150 commission). -/
def rulesCfg : SubsidyRules :=
  [("BEN1_70", ⟨some 2100, some 1000, some 150⟩),
   ("BEN2_62", ⟨some 1800, some 1300, some 150⟩)]

/-- A concrete sale for witnesses and counterexamples. -/
def sampleVenta (orden cliente producto tipo : String) (total cantidad : ℚ)
    (subsidized : Bool) : Venta :=
  { cliente := cliente
    display_name := cliente
    empresa := ""
    fecha := some ⟨2025, 4, 1, 12, 0, 0⟩
    orden := orden
    cantidad := cantidad
    precio_unitario := total
    total := total
    producto := producto
    vendedor := ""
    tipo := tipo
    client_name := cliente
    contacto := Contacto.make (some cliente) none none (some tipo)
    name := cliente
    cedula := "Desconocido"
    position := "No especificado"
    cost_center := "CostCenter_Other"
    is_subsidized := subsidized
    subsidy := 0
    employee_payment := total
    employee_payment_base := 0
    asoavna_commission := 0
    iva := 0
    client_credit := 0
    aseavna_account := 0
    base_price := 0 }

/-- A subsidized sale in a category with no subsidy rule. -/
def ventaRuleMiss : Venta :=
  sampleVenta "O-1" "ASEAVNA AVNA VISITAS, Foo" "Almuerzo Ejecutivo Aseavna"
    "AVNA VISITAS" 2000 1 true

/-- A subsidized BEN1_70 sale at the list price. -/
def ventaBen1 : Venta :=
  sampleVenta "O-2" "ASEAVNA BEN1_70, Juan Pérez" "Almuerzo Ejecutivo Aseavna"
    "BEN1_70" 3100 1 true

/-- A non-subsidized sale. -/
def ventaSoda : Venta :=
  sampleVenta "O-3" "ASEAVNA BEN1_70, Juan Pérez" "Coca-Cola Regular 600mL"
    "BEN1_70" 600 1 false

/-- C1: the claim as stated fails: on a subsidized line whose category has no
rule, the commission is the flat default 150, not 5% of the original total
(100 here) nor 5% of the overridden total (155 here). -/
theorem c1_counterexample :
    (aplicar [] 13 ventaRuleMiss).asoavna_commission ≠
      ventaRuleMiss.total * (5 / 100) ∧
    (aplicar [] 13 ventaRuleMiss).asoavna_commission ≠
      (aplicar [] 13 ventaRuleMiss).total * (5 / 100) := by
  constructor <;> norm_num [aplicar, ventaRuleMiss, sampleVenta, lookupRule]

/-- C1 (amended): on a subsidized line whose category has no entry in the
subsidy-rule table, rating still overrides the total to 3100 and produces
subsidy = 0, employee_payment = the overridden total (3100), and
commission = the flat default 150 — not the non-subsidized 5% treatment. -/
theorem c1_rule_miss (rules : SubsidyRules) (r : ℚ) (v : Venta)
    (hs : v.is_subsidized = true) (hr : lookupRule rules v.tipo = none) :
    (aplicar rules r v).subsidy = 0 ∧
    (aplicar rules r v).total = 3100 ∧
    (aplicar rules r v).employee_payment = 3100 ∧
    (aplicar rules r v).employee_payment = (aplicar rules r v).total ∧
    (aplicar rules r v).asoavna_commission = 150 := by
  simp [aplicar, hs, hr]

/-- C1 witness: the amended rule-miss behavior at a concrete input. -/
theorem c1_witness :
    ventaRuleMiss.is_subsidized = true ∧
    lookupRule rulesCfg ventaRuleMiss.tipo = none ∧
    ((aplicar rulesCfg 13 ventaRuleMiss).subsidy = 0 ∧
     (aplicar rulesCfg 13 ventaRuleMiss).total = 3100 ∧
     (aplicar rulesCfg 13 ventaRuleMiss).employee_payment = 3100 ∧
     (aplicar rulesCfg 13 ventaRuleMiss).employee_payment =
       (aplicar rulesCfg 13 ventaRuleMiss).total ∧
     (aplicar rulesCfg 13 ventaRuleMiss).asoavna_commission = 150) :=
  ⟨by decide, by decide,
   c1_rule_miss rulesCfg 13 ventaRuleMiss (by decide) (by decide)⟩

/-- A subsidized sale whose category rule sums to 200, not 3100. -/
def ventaSmallRule : Venta :=
  sampleVenta "O-4" "ASEAVNA T, Bar" "Almuerzo Ejecutivo Aseavna" "T" 500 1 true

/-- C2: the claim as stated fails: the override total is the hard-coded
constant 3100, not the rule's subsidy + employee_payment (200 here). -/
theorem c2_counterexample :
    (aplicar [("T", ⟨some 100, some 100, some 5⟩)] 0 ventaSmallRule).total ≠
      (100 : ℚ) + 100 ∧
    (aplicar [("T", ⟨some 100, some 100, some 5⟩)] 0 ventaSmallRule).total = 3100 := by
  constructor <;> norm_num [aplicar, ventaSmallRule, sampleVenta, lookupRule]

/-- C2 (amended): on a subsidized line whose category has a complete rule,
rating overrides the total to the constant 3100 (which equals the rule's
subsidy + employee_payment for the shipped rules), recomputes
base_price = 3100 / (1 + r/100) and tax = 3100 - base_price from that
overridden total, takes subsidy/employee_payment/commission from the rule,
and sets employee_payment_base = employee_payment / (1 + r/100). -/
theorem c2_rule_override (rules : SubsidyRules) (r : ℚ) (v : Venta) (s e c : ℚ)
    (hs : v.is_subsidized = true)
    (hr : lookupRule rules v.tipo = some ⟨some s, some e, some c⟩) :
    (aplicar rules r v).total = 3100 ∧
    (aplicar rules r v).base_price = 3100 / (1 + r / 100) ∧
    (aplicar rules r v).iva = (aplicar rules r v).total - (aplicar rules r v).base_price ∧
    (aplicar rules r v).subsidy = s ∧
    (aplicar rules r v).employee_payment = e ∧
    (aplicar rules r v).asoavna_commission = c ∧
    (aplicar rules r v).employee_payment_base = e / (1 + r / 100) := by
  simp [aplicar, hs, hr]

/-- C2 witness: the amended override behavior for the shipped BEN1_70 rule at
a 13% tax rate. -/
theorem c2_witness :
    ventaBen1.is_subsidized = true ∧
    lookupRule rulesCfg ventaBen1.tipo = some ⟨some 2100, some 1000, some 150⟩ ∧
    ((aplicar rulesCfg 13 ventaBen1).total = 3100 ∧
     (aplicar rulesCfg 13 ventaBen1).base_price = 3100 / (1 + 13 / 100) ∧
     (aplicar rulesCfg 13 ventaBen1).iva =
       (aplicar rulesCfg 13 ventaBen1).total - (aplicar rulesCfg 13 ventaBen1).base_price ∧
     (aplicar rulesCfg 13 ventaBen1).subsidy = 2100 ∧
     (aplicar rulesCfg 13 ventaBen1).employee_payment = 1000 ∧
     (aplicar rulesCfg 13 ventaBen1).asoavna_commission = 150 ∧
     (aplicar rulesCfg 13 ventaBen1).employee_payment_base = 1000 / (1 + 13 / 100)) :=
  ⟨by decide, by decide,
   c2_rule_override rulesCfg 13 ventaBen1 2100 1000 150 (by decide) (by decide)⟩

/-- C6: for every rated line at a nonnegative tax rate r%, the final
base price satisfies `base_price * (1 + r/100) = total` against the possibly
overridden total, the tax is `total - base_price`, and at r = 0 the tax is 0
and the base price equals the total. -/
theorem c6_tax_split (rules : SubsidyRules) (r : ℚ) (v : Venta) (hr : 0 ≤ r) :
    (aplicar rules r v).base_price * (1 + r / 100) = (aplicar rules r v).total ∧
    (aplicar rules r v).iva = (aplicar rules r v).total - (aplicar rules r v).base_price ∧
    (r = 0 → (aplicar rules r v).iva = 0 ∧
      (aplicar rules r v).base_price = (aplicar rules r v).total) := by
  have hf : (0 : ℚ) < 1 + r / 100 := by positivity
  cases hsub : v.is_subsidized <;>
    simp [aplicar, hsub, div_mul_cancel₀ _ hf.ne'] <;>
    rintro rfl <;> norm_num

/-- C6 witness: the tax split on the rated BEN1_70 sale at 13%. -/
theorem c6_witness :
    (0 : ℚ) ≤ 13 ∧
    ((aplicar rulesCfg 13 ventaBen1).base_price * (1 + 13 / 100) =
       (aplicar rulesCfg 13 ventaBen1).total ∧
     (aplicar rulesCfg 13 ventaBen1).iva =
       (aplicar rulesCfg 13 ventaBen1).total - (aplicar rulesCfg 13 ventaBen1).base_price ∧
     ((13 : ℚ) = 0 → (aplicar rulesCfg 13 ventaBen1).iva = 0 ∧
       (aplicar rulesCfg 13 ventaBen1).base_price = (aplicar rulesCfg 13 ventaBen1).total)) :=
  ⟨by norm_num, c6_tax_split rulesCfg 13 ventaBen1 (by norm_num)⟩

/-- C8: after rating, on every branch: base_price + tax = total,
client_credit = employee_payment, association account = subsidy, and on
non-subsidized lines employee_payment = total. -/
theorem c8_invariants (rules : SubsidyRules) (r : ℚ) (v : Venta) :
    (aplicar rules r v).base_price + (aplicar rules r v).iva = (aplicar rules r v).total ∧
    (aplicar rules r v).client_credit = (aplicar rules r v).employee_payment ∧
    (aplicar rules r v).aseavna_account = (aplicar rules r v).subsidy ∧
    (v.is_subsidized = false →
      (aplicar rules r v).employee_payment = (aplicar rules r v).total) := by
  cases hsub : v.is_subsidized <;> simp [aplicar, hsub]

/-- C8 witness: the rating invariants on a concrete non-subsidized sale. -/
theorem c8_witness :
    (aplicar rulesCfg 13 ventaSoda).base_price + (aplicar rulesCfg 13 ventaSoda).iva =
      (aplicar rulesCfg 13 ventaSoda).total ∧
    (aplicar rulesCfg 13 ventaSoda).client_credit =
      (aplicar rulesCfg 13 ventaSoda).employee_payment ∧
    (aplicar rulesCfg 13 ventaSoda).aseavna_account =
      (aplicar rulesCfg 13 ventaSoda).subsidy ∧
    (ventaSoda.is_subsidized = false →
      (aplicar rulesCfg 13 ventaSoda).employee_payment =
        (aplicar rulesCfg 13 ventaSoda).total) :=
  c8_invariants rulesCfg 13 ventaSoda

/-- Filtering a deduplication run by a key already seen yields nothing. -/
theorem dedupGo_filter_mem (k : String) (seen : List String) (l : List Venta)
    (h : k ∈ seen) :
    (dedupGo seen l).filter (fun v => ventaKey v == k) = [] := by
  induction l generalizing seen with
  | nil => rfl
  | cons v vs ih =>
    by_cases hv : ventaKey v ∈ seen
    · simp only [dedupGo, if_pos hv]
      exact ih seen h
    · have hne : (ventaKey v == k) = false := by
        simp only [beq_eq_false_iff_ne]
        intro he
        exact hv (he ▸ h)
      simp only [dedupGo, if_neg hv, List.filter_cons, hne, cond_false]
      exact ih (ventaKey v :: seen) (List.mem_cons_of_mem _ h)

/-- Filtering a deduplication run by an unseen key keeps exactly the first
input row with that key. -/
theorem dedupGo_filter_not_mem (k : String) (seen : List String) (l : List Venta)
    (h : k ∉ seen) :
    (dedupGo seen l).filter (fun v => ventaKey v == k) =
      (l.filter (fun v => ventaKey v == k)).take 1 := by
  induction l generalizing seen with
  | nil => rfl
  | cons v vs ih =>
    by_cases hv : ventaKey v ∈ seen
    · have hne : (ventaKey v == k) = false := by
        simp only [beq_eq_false_iff_ne]
        intro he
        exact h (he ▸ hv)
      simp only [dedupGo, if_pos hv, List.filter_cons, hne, cond_false]
      exact ih seen h
    · by_cases hk : ventaKey v = k
      · have heq : (ventaKey v == k) = true := by simp [hk]
        simp only [dedupGo, if_neg hv, List.filter_cons, heq, cond_true]
        rw [dedupGo_filter_mem k _ vs (by simp [hk])]
        simp
      · have hne : (ventaKey v == k) = false := by simp [hk]
        simp only [dedupGo, if_neg hv, List.filter_cons, hne, cond_false]
        refine ih (ventaKey v :: seen) ?_
        intro hmem
        rcases List.mem_cons.mp hmem with he | he
        · exact hk he.symm
        · exact h he

/-- C5: two batch rows with identical (order, client label, product) have the
same deduplication key; the deduplicated output retains exactly one row with
that key, namely the first-seen occurrence, whatever the other fields are. -/
theorem c5_dedup_first_wins (l : List Venta) (v1 v2 : Venta)
    (h1 : v1 ∈ l) (h2 : v2 ∈ l) (ho : v1.orden = v2.orden)
    (hc : v1.cliente = v2.cliente) (hp : v1.producto = v2.producto) :
    ventaKey v2 = ventaKey v1 ∧
    (dedupVentas l).filter (fun w => ventaKey w == ventaKey v1) =
      (l.filter (fun w => ventaKey w == ventaKey v1)).take 1 ∧
    ((dedupVentas l).filter (fun w => ventaKey w == ventaKey v1)).length = 1 := by
  have hk : ventaKey v2 = ventaKey v1 := by
    unfold ventaKey
    rw [ho, hc, hp]
  have hfil := dedupGo_filter_not_mem (ventaKey v1) [] l (by simp)
  refine ⟨hk, hfil, ?_⟩
  show (List.filter (fun w => ventaKey w == ventaKey v1) (dedupGo [] l)).length = 1
  rw [hfil]
  have hmem : v1 ∈ l.filter (fun w => ventaKey w == ventaKey v1) :=
    List.mem_filter.mpr ⟨h1, by simp⟩
  cases hf : l.filter (fun w => ventaKey w == ventaKey v1) with
  | nil =>
    rw [hf] at hmem
    cases hmem
  | cons a t => simp [hf]

/-- The first of two duplicate-keyed sample rows (quantity 1). -/
def ventaDupA : Venta :=
  sampleVenta "O-9" "ASEAVNA BEN1_70, Ana" "Galleta" "BEN1_70" 500 1 false

/-- The second duplicate-keyed sample row, differing in quantity. -/
def ventaDupB : Venta :=
  sampleVenta "O-9" "ASEAVNA BEN1_70, Ana" "Galleta" "BEN1_70" 500 2 false

/-- C5 witness: duplicate submission at a concrete two-row batch. -/
theorem c5_witness :
    ventaDupA ∈ [ventaDupA, ventaDupB] ∧ ventaDupB ∈ [ventaDupA, ventaDupB] ∧
    ventaDupA.orden = ventaDupB.orden ∧ ventaDupA.cliente = ventaDupB.cliente ∧
    ventaDupA.producto = ventaDupB.producto ∧
    (ventaKey ventaDupB = ventaKey ventaDupA ∧
     (dedupVentas [ventaDupA, ventaDupB]).filter
         (fun w => ventaKey w == ventaKey ventaDupA) =
       (([ventaDupA, ventaDupB]).filter
         (fun w => ventaKey w == ventaKey ventaDupA)).take 1 ∧
     ((dedupVentas [ventaDupA, ventaDupB]).filter
         (fun w => ventaKey w == ventaKey ventaDupA)).length = 1) :=
  ⟨by decide, by decide, by decide, by decide, by decide,
   c5_dedup_first_wins [ventaDupA, ventaDupB] ventaDupA ventaDupB
     (by decide) (by decide) (by decide) (by decide) (by decide)⟩

/-- A row whose order id carries a hyphen. -/
def ventaHyphenA : Venta :=
  sampleVenta "10-A" "X" "P" "BEN1_70" 500 1 false

/-- A row with a distinct triple whose concatenated key collides with
`ventaHyphenA`. -/
def ventaHyphenB : Venta :=
  sampleVenta "10" "A-X" "P" "BEN1_70" 600 1 false

/-- C10: the deduplication key is the hyphen-joined concatenation, so two
distinct (order, client, product) triples containing hyphens can collide,
and the second row is dropped as a duplicate of the first. -/
theorem c10_key_collision :
    (ventaHyphenA.orden, ventaHyphenA.cliente, ventaHyphenA.producto) ≠
      (ventaHyphenB.orden, ventaHyphenB.cliente, ventaHyphenB.producto) ∧
    ventaKey ventaHyphenA = ventaKey ventaHyphenB ∧
    dedupVentas [ventaHyphenA, ventaHyphenB] = [ventaHyphenA] := by
  refine ⟨by decide, by decide, by decide⟩

/-- Quantity-scaled sum of a rated field over the subsidized rows of one
category. -/
def subSum (tipo : String) (f : Venta → ℚ) (l : List Venta) : ℚ :=
  ((l.filter (fun v => v.is_subsidized && v.tipo == tipo)).map
    (fun v => f v * v.cantidad)).sum

/-- Peel one row off a category sum. -/
theorem subSum_cons (tipo : String) (f : Venta → ℚ) (v : Venta) (vs : List Venta) :
    subSum tipo f (v :: vs) =
      (if v.is_subsidized && v.tipo == tipo then f v * v.cantidad else 0) +
        subSum tipo f vs := by
  unfold subSum
  rw [List.filter_cons]
  by_cases h : (v.is_subsidized && v.tipo == tipo) = true
  · simp [h]
  · simp [h]

/-- One billing-loop step adds the row's subsidy to the BEN1_70 bucket exactly
when the row is a subsidized BEN1_70 row. -/
theorem factStep_ben1_subsidy (a : FactAcc) (v : Venta) :
    (factStep a v).ben1.subsidy = a.ben1.subsidy +
      (if v.is_subsidized && v.tipo == "BEN1_70" then v.subsidy * v.cantidad else 0) := by
  by_cases hs : v.is_subsidized
  · by_cases h1 : v.tipo = "BEN1_70"
    · simp [factStep, bucketStep, hs, h1]
    · by_cases h2 : v.tipo = "BEN2_62" <;> simp [factStep, bucketStep, hs, h1, h2]
  · simp [factStep, hs]

/-- One billing-loop step adds the row's pre-tax employee payment to the
BEN1_70 bucket exactly when the row is a subsidized BEN1_70 row. -/
theorem factStep_ben1_payment (a : FactAcc) (v : Venta) :
    (factStep a v).ben1.employee_payment = a.ben1.employee_payment +
      (if v.is_subsidized && v.tipo == "BEN1_70" then
        v.employee_payment_base * v.cantidad else 0) := by
  by_cases hs : v.is_subsidized
  · by_cases h1 : v.tipo = "BEN1_70"
    · simp [factStep, bucketStep, hs, h1]
    · by_cases h2 : v.tipo = "BEN2_62" <;> simp [factStep, bucketStep, hs, h1, h2]
  · simp [factStep, hs]

/-- One billing-loop step adds the row's subsidy to the BEN2_62 bucket exactly
when the row is a subsidized BEN2_62 row. -/
theorem factStep_ben2_subsidy (a : FactAcc) (v : Venta) :
    (factStep a v).ben2.subsidy = a.ben2.subsidy +
      (if v.is_subsidized && v.tipo == "BEN2_62" then v.subsidy * v.cantidad else 0) := by
  by_cases hs : v.is_subsidized
  · by_cases h1 : v.tipo = "BEN1_70"
    · simp [factStep, bucketStep, hs, h1]
    · by_cases h2 : v.tipo = "BEN2_62" <;> simp [factStep, bucketStep, hs, h1, h2]
  · simp [factStep, hs]

/-- One billing-loop step adds the row's pre-tax employee payment to the
BEN2_62 bucket exactly when the row is a subsidized BEN2_62 row. -/
theorem factStep_ben2_payment (a : FactAcc) (v : Venta) :
    (factStep a v).ben2.employee_payment = a.ben2.employee_payment +
      (if v.is_subsidized && v.tipo == "BEN2_62" then
        v.employee_payment_base * v.cantidad else 0) := by
  by_cases hs : v.is_subsidized
  · by_cases h1 : v.tipo = "BEN1_70"
    · simp [factStep, bucketStep, hs, h1]
    · by_cases h2 : v.tipo = "BEN2_62" <;> simp [factStep, bucketStep, hs, h1, h2]
  · simp [factStep, hs]

/-- The folded BEN1_70 subsidy cell is the category sum of subsidies. -/
theorem foldl_ben1_subsidy (l : List Venta) (a : FactAcc) :
    (l.foldl factStep a).ben1.subsidy =
      a.ben1.subsidy + subSum "BEN1_70" (fun v => v.subsidy) l := by
  induction l generalizing a with
  | nil => simp [subSum]
  | cons v vs ih =>
    rw [List.foldl_cons, ih (factStep a v), factStep_ben1_subsidy, subSum_cons]
    ring

/-- The folded BEN1_70 employee-payment cell is the category sum of pre-tax
employee payments. -/
theorem foldl_ben1_payment (l : List Venta) (a : FactAcc) :
    (l.foldl factStep a).ben1.employee_payment =
      a.ben1.employee_payment +
        subSum "BEN1_70" (fun v => v.employee_payment_base) l := by
  induction l generalizing a with
  | nil => simp [subSum]
  | cons v vs ih =>
    rw [List.foldl_cons, ih (factStep a v), factStep_ben1_payment, subSum_cons]
    ring

/-- The folded BEN2_62 subsidy cell is the category sum of subsidies. -/
theorem foldl_ben2_subsidy (l : List Venta) (a : FactAcc) :
    (l.foldl factStep a).ben2.subsidy =
      a.ben2.subsidy + subSum "BEN2_62" (fun v => v.subsidy) l := by
  induction l generalizing a with
  | nil => simp [subSum]
  | cons v vs ih =>
    rw [List.foldl_cons, ih (factStep a v), factStep_ben2_subsidy, subSum_cons]
    ring

/-- The folded BEN2_62 employee-payment cell is the category sum of pre-tax
employee payments. -/
theorem foldl_ben2_payment (l : List Venta) (a : FactAcc) :
    (l.foldl factStep a).ben2.employee_payment =
      a.ben2.employee_payment +
        subSum "BEN2_62" (fun v => v.employee_payment_base) l := by
  induction l generalizing a with
  | nil => simp [subSum]
  | cons v vs ih =>
    rw [List.foldl_cons, ih (factStep a v), factStep_ben2_payment, subSum_cons]
    ring

/-- The rated BEN1_70 list-price sale at a 13% tax rate. -/
def ventaC3 : Venta :=
  aplicar rulesCfg 13 ventaBen1

/-- C3: the claim as stated fails: the reported percentage divides by the sum
of the pre-tax employee payments (employee_payment_base), not of
employee_payment, so at a 13% tax rate the reported BEN1_70 percentage
differs from subsidy / (subsidy + employee_payment) * 100. -/
theorem c3_counterexample :
    (calcularFacturacion [ventaC3]).subsidy_percentage_ben1 ≠
      ventaC3.subsidy / (ventaC3.subsidy + ventaC3.employee_payment) * 100 := by
  norm_num [calcularFacturacion, factStep, bucketStep, Bucket.zero, ventaC3,
    aplicar, ventaBen1, sampleVenta, lookupRule, rulesCfg]

/-- C3 (amended): for the BEN1_70 and BEN2_62 buckets, the reported subsidy
percentage is subsidy / (subsidy + employee_payment_base sums) * 100 over the
bucket's subsidized rows (quantity-scaled), and 0 when that denominator is
not positive. -/
theorem c3_subsidy_percentage (l : List Venta) :
    (calcularFacturacion l).subsidy_percentage_ben1 =
      (if 0 < subSum "BEN1_70" (fun v => v.subsidy) l +
            subSum "BEN1_70" (fun v => v.employee_payment_base) l then
        subSum "BEN1_70" (fun v => v.subsidy) l /
          (subSum "BEN1_70" (fun v => v.subsidy) l +
            subSum "BEN1_70" (fun v => v.employee_payment_base) l) * 100
      else 0) ∧
    (calcularFacturacion l).subsidy_percentage_ben2 =
      (if 0 < subSum "BEN2_62" (fun v => v.subsidy) l +
            subSum "BEN2_62" (fun v => v.employee_payment_base) l then
        subSum "BEN2_62" (fun v => v.subsidy) l /
          (subSum "BEN2_62" (fun v => v.subsidy) l +
            subSum "BEN2_62" (fun v => v.employee_payment_base) l) * 100
      else 0) := by
  cases l with
  | nil => simp [calcularFacturacion, subSum]
  | cons v vs =>
    have hb1s := foldl_ben1_subsidy (v :: vs) ⟨Bucket.zero, Bucket.zero, Bucket.zero, 0⟩
    have hb1p := foldl_ben1_payment (v :: vs) ⟨Bucket.zero, Bucket.zero, Bucket.zero, 0⟩
    have hb2s := foldl_ben2_subsidy (v :: vs) ⟨Bucket.zero, Bucket.zero, Bucket.zero, 0⟩
    have hb2p := foldl_ben2_payment (v :: vs) ⟨Bucket.zero, Bucket.zero, Bucket.zero, 0⟩
    simp only [Bucket.zero, zero_add] at hb1s hb1p hb2s hb2p
    simp only [calcularFacturacion, List.isEmpty_cons, Bool.false_eq_true, if_false,
      Bucket.zero]
    rw [hb1s, hb1p, hb2s, hb2p]
    exact ⟨rfl, rfl⟩

/-- C4: the claim as stated fails: a roster table with no rows is returned as
an empty directory before the schema check, even though all four required
columns are missing. -/
theorem c4_counterexample :
    missingUserColumns ⟨[], []⟩ = ["Nombre", "Cédula", "Puesto", "Tipo"] ∧
    procesarContactos ⟨[], []⟩ = .ok [] := by
  constructor
  · rfl
  · rfl

/-- C4 (amended): building the directory from a roster table that has at
least one row and is missing at least one required column fails with the
schema error naming exactly the missing columns, producing no contact. -/
theorem c4_schema_error (df : UserDF) (hne : df.rows ≠ [])
    (hm : missingUserColumns df ≠ []) :
    procesarContactos df =
      .error ("Columnas faltantes en users_data.csv: " ++
        String.intercalate ", " (missingUserColumns df)) := by
  unfold procesarContactos
  have h1 : df.rows.isEmpty = false := by
    cases hr : df.rows with
    | nil => exact absurd hr hne
    | cons a t => rfl
  have h2 : (missingUserColumns df).isEmpty = false := by
    cases hr : missingUserColumns df with
    | nil => exact absurd hr hm
    | cons a t => rfl
  simp [h1, h2]

/-- A one-row roster carrying only the name column. -/
def rosterMissing : UserDF :=
  ⟨["Nombre"], [[("Nombre", some "Ana")]]⟩

/-- C4 witness: the amended schema-error behavior at a concrete roster. -/
theorem c4_witness :
    rosterMissing.rows ≠ [] ∧ missingUserColumns rosterMissing ≠ [] ∧
    procesarContactos rosterMissing =
      .error ("Columnas faltantes en users_data.csv: " ++
        String.intercalate ", " (missingUserColumns rosterMissing)) :=
  ⟨by decide, by decide, c4_schema_error rosterMissing (by decide) (by decide)⟩

end SalesReport
